import Mathlib

/-
Verification development for the wind-turbine blade-inspection GSD and
blade-geometry core.

The development shallowly embeds the distance-resolution, GSD, interpolation,
blade-geometry, position-mapping and upload-pipeline functions of the
repository in Lean.  JavaScript numbers are modelled as exact rationals
(`ℚ`), except for the pixel-measurement mapper whose Euclidean length needs
`Real.sqrt` and is modelled over `ℝ`.  Metadata bags are association lists
from tag names to string-or-number values.  The regular-expression pattern
cascades of the two text-comment passes are abstracted as a parameter
`tx : String → List ℚ` returning, in pattern order, the candidate values the
patterns extract from a comment string; every theorem below that touches a
text pass quantifies over this parameter, so no claim depends on the regex
details.
-/

/-- The three-valued distance-confidence enum `"high" | "medium" | "low"`. -/
inductive Confidence where
  | high
  | medium
  | low
deriving DecidableEq, Repr

/-- A metadata value as produced by the external metadata extractor:
either a JSON string or a JSON number. -/
inductive ExifValue where
  | str (s : String)
  | num (q : ℚ)
deriving DecidableEq, Repr

/-- A raw metadata bag: unordered mapping from namespaced tag names to
values, modelled as an association list (first binding wins). -/
abbrev ExifBag := List (String × ExifValue)

/-- Tag lookup, modelling JavaScript property access `exifData[field]`:
`none` plays the role of `undefined`. -/
def lookupTag (bag : ExifBag) (key : String) : Option ExifValue :=
  (bag.find? (fun p => p.1 = key)).map (fun p => p.2)

/-- JavaScript truthiness of a metadata value: the empty string and the
number `0` are falsy, everything else is truthy.  (`NaN`, the remaining
falsy number, has no rational counterpart.) -/
def jsTruthy : ExifValue → Bool
  | ExifValue.str s => s ≠ ""
  | ExifValue.num q => q ≠ 0

/-- ASCII lower-casing of one character, the fragment of
`String.prototype.toLowerCase` exercised by the tag names in this code
base. -/
def asciiLower (c : Char) : Char :=
  if 'A' ≤ c ∧ c ≤ 'Z' then Char.ofNat (c.toNat + 32) else c

/-- ASCII upper-casing of one character, the fragment of
`String.prototype.toUpperCase` exercised by the camera make/model strings. -/
def asciiUpper (c : Char) : Char :=
  if 'a' ≤ c ∧ c ≤ 'z' then Char.ofNat (c.toNat - 32) else c

/-- Models `s.toLowerCase()` for the ASCII strings appearing here. -/
def strLower (s : String) : String := ⟨s.data.map asciiLower⟩

/-- Models `s.toUpperCase()` for the ASCII strings appearing here. -/
def strUpper (s : String) : String := ⟨s.data.map asciiUpper⟩

/-- Whether `pat` occurs as a contiguous sublist of `l`. -/
def listContainsSub (l pat : List Char) : Bool :=
  pat.isPrefixOf l ||
    match l with
    | [] => false
    | _ :: t => listContainsSub t pat

/-- Models `s.includes(pat)` on JavaScript strings. -/
def jsIncludes (s pat : String) : Bool := listContainsSub s.data pat.data

/-- Decimal digits to a natural number (most significant first). -/
def digitsToNat (l : List Char) : Nat :=
  l.foldl (fun n c => 10 * n + (c.toNat - 48)) 0

/-- Models JavaScript `parseFloat` on the plain-decimal strings this code
feeds it: optional leading whitespace, optional sign, digits, optional
fractional part; trailing garbage is ignored; `none` plays the role of
`NaN`.  Exponent notation and `Infinity`, which no metadata value in scope
uses, are not modelled. -/
def jsParseFloat (s : String) : Option ℚ :=
  let l := s.data.dropWhile Char.isWhitespace
  let sign : ℚ := match l with | '-' :: _ => -1 | _ => 1
  let l2 := match l with | '-' :: t => t | '+' :: t => t | _ => l
  let intPart := l2.takeWhile Char.isDigit
  let rest := l2.dropWhile Char.isDigit
  let fracPart := match rest with | '.' :: t => t.takeWhile Char.isDigit | _ => []
  if intPart = [] ∧ fracPart = [] then none
  else some (sign * ((digitsToNat intPart : ℚ) + (digitsToNat fracPart : ℚ) / (10 ^ fracPart.length)))

/-- Models `parseFloat(value)` applied to a metadata value: a number is
passed through (`toString` followed by `parseFloat` is the identity on the
plain-decimal numbers in scope), a string is parsed. -/
def parseFloatValue : ExifValue → Option ℚ
  | ExifValue.num q => some q
  | ExifValue.str s => jsParseFloat s

/-- Ascending numeric sort, modelling `array.sort((a, b) => a - b)`.
Any correct ascending sort produces the same list (sortedness plus
permutation determine the output), so insertion sort is used for kernel
computability. -/
def sortAsc (l : List ℚ) : List ℚ := l.insertionSort (· ≤ ·)

/-- The result record of both distance resolvers:
`{ distance, source, confidence, raw_value? }` from `findDistanceInExif`
(lib/exiftool-utils.ts) and `extractBladeDistance`
(app/api/upload/route.ts). -/
structure DistanceResult where
  distance : ℚ
  source : String
  confidence : Confidence
  raw_value : Option ExifValue
deriving DecidableEq, Repr

/-- The unresolved sentinel `{ distance: 0, source: "not_found",
confidence: "low" }` returned by both resolvers. -/
def notFoundResult : DistanceResult :=
  ⟨0, "not_found", Confidence.low, none⟩

/-- The five text fields scanned by pass 1 of `findDistanceInExif`
(lib/exiftool-utils.ts lines 186-190, the `slice(0, 5)` of
`distanceFields`). -/
def findTextFields : List String :=
  ["UserComment", "EXIF:UserComment", "ImageDescription", "XMP:Description", "Comments"]

/-- The numeric fields scanned by pass 2 of `findDistanceInExif`
(lib/exiftool-utils.ts lines 193-200, the `slice(5)` of `distanceFields`),
each with its confidence. -/
def findNumericFields : List (String × Confidence) :=
  [("SubjectDistance", Confidence.medium), ("EXIF:SubjectDistance", Confidence.medium),
   ("Composite:SubjectDistance", Confidence.medium), ("XMP:SubjectDistance", Confidence.medium),
   ("FocusDistance", Confidence.low), ("HyperfocalDistance", Confidence.low)]

/-- One text field of `findDistanceInExif`'s pass 1 (lines 204-230): if the
field holds a string, the regex cascade (abstracted as `tx`) yields
candidates in pattern order and the first one in `(0, 1000)` is accepted
with the field's confidence. -/
def textPatternCandidate (tx : String → List ℚ) (bag : ExifBag) (field : String) :
    Option DistanceResult :=
  match lookupTag bag field with
  | some (ExifValue.str v) =>
    match (tx v).find? (fun d => 0 < d ∧ d < 1000) with
    | some d => some ⟨d, field, Confidence.high, some (ExifValue.str v)⟩
    | none => none
  | _ => none

/-- One numeric field of `findDistanceInExif`'s pass 2 (lines 233-243):
accepted only if the value is number-typed and lies in `(0, 1000)`. -/
def numericFieldCandidate (bag : ExifBag) (fc : String × Confidence) :
    Option DistanceResult :=
  match lookupTag bag fc.1 with
  | some (ExifValue.num v) =>
    if 0 < v ∧ v < 1000 then some ⟨v, fc.1, fc.2, some (ExifValue.num v)⟩ else none
  | _ => none

/-- The read-time distance resolver `findDistanceInExif`
(lib/exiftool-utils.ts lines 177-250): text pass over the first five
fields, then numeric pass over the remaining six, then the unresolved
sentinel. -/
def findDistanceInExif (tx : String → List ℚ) (bag : ExifBag) : DistanceResult :=
  match findTextFields.findSome? (textPatternCandidate tx bag) with
  | some r => r
  | none =>
    match findNumericFields.findSome? (numericFieldCandidate bag) with
    | some r => r
    | none => notFoundResult

/-- The seven comment fields scanned by `extractBladeDistance`
(app/api/upload/route.ts lines 22-30). -/
def uploadCommentFields : List String :=
  ["EXIF:UserComment", "UserComment", "Comment", "XMP:UserComment",
   "IPTC:SpecialInstructions", "ImageDescription", "XMP:Description"]

/-- The three subject-distance fields scanned by `extractBladeDistance`
(app/api/upload/route.ts lines 62-66). -/
def uploadSubjectFields : List String :=
  ["EXIF:SubjectDistance", "SubjectDistance", "Camera:SubjectDistance"]

/-- One comment field of `extractBladeDistance` (lines 32-59): the value
must be a truthy string with a truthy `trim()` (that is, contain a
non-whitespace character); the regex cascade (abstracted as `tx`) yields
candidates in pattern order and the first one in `(0.1, 200)` is accepted
with confidence high. -/
def uploadCommentCandidate (tx : String → List ℚ) (bag : ExifBag) (field : String) :
    Option DistanceResult :=
  match lookupTag bag field with
  | some (ExifValue.str v) =>
    if v ≠ "" ∧ v.data.any (fun c => !c.isWhitespace) then
      match (tx v).find? (fun d => 0.1 < d ∧ d < 200) with
      | some d => some ⟨d, field, Confidence.high, some (ExifValue.str v)⟩
      | none => none
    else none
  | _ => none

/-- One subject-distance field of `extractBladeDistance` (lines 68-82): the
value must be truthy and `parseFloat` to a non-`NaN` number in
`(0.5, 100)`; both string-typed and number-typed values are accepted. -/
def uploadSubjectCandidate (bag : ExifBag) (field : String) : Option DistanceResult :=
  match lookupTag bag field with
  | some v =>
    if jsTruthy v then
      match parseFloatValue v with
      | some d =>
        if 0.5 < d ∧ d < 100 then some ⟨d, field, Confidence.medium, some v⟩ else none
      | none => none
    else none
  | none => none

/-- The upload-time distance resolver `extractBladeDistance`
(app/api/upload/route.ts lines 15-90): comment pass, then
subject-distance pass, then the unresolved sentinel.  Focus-distance
fields are never consulted. -/
def extractBladeDistance (tx : String → List ℚ) (bag : ExifBag) : DistanceResult :=
  match uploadCommentFields.findSome? (uploadCommentCandidate tx bag) with
  | some r => r
  | none =>
    match uploadSubjectFields.findSome? (uploadSubjectCandidate bag) with
    | some r => r
    | none => notFoundResult

/-- The focus-misuse flag of `validateTurbineImages`
(lib/image-validation.ts lines 97-101): a stored `distance_source` is
flagged as an error when it equals `"XMP:FocusDistance"` or
`"FocusDistance"` or its lower-casing contains `"focus"`. -/
def focusSourceFlagged (source : String) : Bool :=
  source = "XMP:FocusDistance" || source = "FocusDistance" ||
    jsIncludes (strLower source) "focus"

/-- The per-image GSD record created at ingestion time
(`calculateGSDForTurbine`'s return shape, app/api/upload/route.ts lines
175-183). -/
structure GSDRecord where
  gsd_width : ℚ
  gsd_height : ℚ
  gsd_cm_per_pixel : ℚ
  flight_height : ℚ
  distance_to_blade : ℚ
  altitude_source : String
  distance_source : String
  distance_confidence : Confidence
deriving DecidableEq, Repr

/-- The slice of a `TurbineImage` consumed by the core computations:
blade label, side label and the exclusively-owned GSD record.  (The id,
file paths, camera record and date are I/O bookkeeping outside the
embedding.) -/
structure TurbineImage where
  blade : String
  side : String
  gsd : GSDRecord
deriving DecidableEq, Repr

/-- The statistics record of the interpolation estimator
`calculateDistanceStatistics` (app/api/upload/route.ts lines 97-102). -/
structure DistanceStats where
  meanDistance : ℚ
  medianDistance : ℚ
  validDistances : List ℚ
  confidence : Confidence
deriving DecidableEq, Repr

/-- The same-blade/same-side sample filter of `calculateDistanceStatistics`
(app/api/upload/route.ts lines 104-110): matching blade and side, positive
stored distance, confidence not `"low"`. -/
def sameBladeSideFilter (blade side : String) (img : TurbineImage) : Bool :=
  decide (img.blade = blade ∧ img.side = side ∧
    0 < img.gsd.distance_to_blade ∧ img.gsd.distance_confidence ≠ Confidence.low)

/-- The full-population fallback filter of `calculateDistanceStatistics`
(app/api/upload/route.ts lines 116-120): positive stored distance,
confidence not `"low"`. -/
def confidenceFilter (img : TurbineImage) : Bool :=
  decide (0 < img.gsd.distance_to_blade ∧ img.gsd.distance_confidence ≠ Confidence.low)

/-- The statistics computation of `calculateDistanceStatistics` over an
already-chosen sample population (app/api/upload/route.ts lines 122-164).
The JavaScript confidence test `Math.sqrt(variance) < meanDistance * 0.1`
is encoded in its exact square-free form
`0 < mean ∧ 100 * variance < mean * mean` (equivalent because
`variance ≥ 0`, and `sqrt v < t ↔ 0 < t ∧ v < t²` for `v ≥ 0`). -/
def statsFromImages (relevant : List TurbineImage) : DistanceStats :=
  let validDistances := relevant.map (fun img => img.gsd.distance_to_blade)
  if validDistances = [] then ⟨0, 0, [], Confidence.low⟩
  else
    let sortedDistances := sortAsc validDistances
    let meanDistance := validDistances.sum / (validDistances.length : ℚ)
    let medianDistance := sortedDistances.getD (sortedDistances.length / 2) 0
    let variance :=
      ((validDistances.map (fun d => (d - meanDistance) ^ 2)).sum) / (validDistances.length : ℚ)
    let confidence :=
      if 5 ≤ validDistances.length then
        (if 0 < meanDistance ∧ 100 * variance < meanDistance * meanDistance then
          Confidence.high
        else Confidence.medium)
      else if validDistances.length < 3 then Confidence.low
      else Confidence.medium
    ⟨meanDistance, medianDistance, sortedDistances, confidence⟩

/-- The interpolation estimator `calculateDistanceStatistics`
(app/api/upload/route.ts lines 93-165): prefer same-blade/same-side
samples; when fewer than 3 exist, fall back to the full population under
the confidence filter. -/
def calculateDistanceStatistics (images : List TurbineImage) (blade side : String) :
    DistanceStats :=
  let sameBladeImages := images.filter (sameBladeSideFilter blade side)
  let relevantImages :=
    if 3 ≤ sameBladeImages.length then sameBladeImages
    else images.filter confidenceFilter
  statsFromImages relevantImages

/-- Camera optics record returned by `getCameraSpecs`
(app/api/upload/route.ts lines 248-306). -/
structure CameraSpecs where
  focal_length : ℚ
  sensor_width : ℚ
  sensor_height : ℚ
deriving DecidableEq, Repr

/-- First truthy value among a chain of tag lookups, modelling the
JavaScript fallback chain `bag[k1] || bag[k2] || ...` (falsy present
values fall through, matching `||`). -/
def firstTruthyValue (bag : ExifBag) (keys : List String) : Option ExifValue :=
  keys.findSome? (fun k =>
    match lookupTag bag k with
    | some v => if jsTruthy v then some v else none
    | none => none)

/-- First truthy string among a chain of tag lookups with a literal
default, modelling `(bag[k1] || bag[k2] || dflt)` for the make/model
fields.  A truthy non-string value here would crash the JavaScript on the
subsequent `toUpperCase()` call; that crashing regime is outside the
embedding and mapped to the default. -/
def jsStringField (bag : ExifBag) (keys : List String) (dflt : String) : String :=
  match firstTruthyValue bag keys with
  | some (ExifValue.str s) => s
  | _ => dflt

/-- First maximal run of characters drawn from `[0-9.]`, modelling the
regex match `/([\d.]+)/` used on the focal-length string. -/
def firstNumericRun (s : String) : Option (List Char) :=
  let l := s.data.dropWhile (fun c => !(c.isDigit || c = '.'))
  let run := l.takeWhile (fun c => c.isDigit || c = '.')
  if run = [] then none else some run

/-- The focal-length extraction inside `getCameraSpecs`
(app/api/upload/route.ts lines 257-269): fallback chain over three tags
with default `"12.29 mm"`, a string value contributes its first numeric
run through `parseFloat`, a number value is used directly, and otherwise
the initial `12.29` stands.  (A numeric run of only dots would store `NaN`
in the JavaScript; that `NaN` regime is outside the rational embedding and
is mapped to the `12.29` initial value.) -/
def extractFocalLength (bag : ExifBag) : ℚ :=
  let raw := (firstTruthyValue bag
    ["EXIF:FocalLength", "FocalLength", "Camera:FocalLength"]).getD (ExifValue.str "12.29 mm")
  match raw with
  | ExifValue.str s =>
    match (firstNumericRun s).bind (fun run => jsParseFloat (String.mk run)) with
    | some q => q
    | none => 12.29
  | ExifValue.num q => q

/-- The camera-specification lookup `getCameraSpecs`
(app/api/upload/route.ts lines 248-306): case-insensitive substring match
on make/model choosing sensor dimensions, with the DJI M3E sensor
(17.3 × 13.0 mm) as the universal default. -/
def getCameraSpecs (make model : String) (bag : ExifBag) : CameraSpecs :=
  let focalLength := extractFocalLength bag
  let makeUpper := strUpper make
  let modelUpper := strUpper model
  if jsIncludes makeUpper "DJI" then
    if jsIncludes modelUpper "M3E" || jsIncludes modelUpper "MAVIC 3 ENTERPRISE" then
      ⟨focalLength, 17.3, 13.0⟩
    else if jsIncludes modelUpper "M3" || jsIncludes modelUpper "MAVIC 3" then
      ⟨focalLength, 17.3, 13.0⟩
    else if jsIncludes modelUpper "MINI" || jsIncludes modelUpper "M2" then
      ⟨focalLength, 6.17, 4.55⟩
    else if jsIncludes modelUpper "AIR" then
      ⟨focalLength, 6.4, 4.8⟩
    else ⟨focalLength, 17.3, 13.0⟩
  else ⟨focalLength, 17.3, 13.0⟩

/-- The altitude extraction inside `calculateGSDForTurbine`
(app/api/upload/route.ts lines 209-217): fallback chain over four
altitude tags defaulting to `"0"`, then
`parseFloat(value.toString().replace(/[^\d.-]/g, "")) || 0`.  On a number
value the `toString`-strip-`parseFloat` round trip is the identity for the
plain-decimal magnitudes drone altitudes take; a `NaN` parse falls back to
`0` through the final `|| 0`. -/
def parseAltitude (bag : ExifBag) : ℚ :=
  let raw := (firstTruthyValue bag
    ["XMP:RelativeAltitude", "RelativeAltitude", "GPS:GPSAltitude", "GPSAltitude"]).getD
    (ExifValue.str "0")
  match raw with
  | ExifValue.num q => q
  | ExifValue.str s =>
    (jsParseFloat (String.mk (s.data.filter (fun c => c.isDigit || c = '.' || c = '-')))).getD 0

/-- The upload-time GSD calculation `calculateGSDForTurbine`
(app/api/upload/route.ts lines 168-230): camera-spec lookup, the
`distanceToBladeMeters <= 0` guard throwing
`"Invalid distance to blade: must be greater than 0"` (modelled as
`Except.error`), the GSD formula, and the altitude extraction. -/
def calculateGSDForTurbine (bag : ExifBag) (imageWidth imageHeight : ℚ)
    (distanceToBladeMeters : ℚ) (distanceSource : String)
    (distanceConfidence : Confidence) : Except String GSDRecord :=
  let make := jsStringField bag ["EXIF:Make", "Make"] "DJI"
  let model := jsStringField bag ["EXIF:Model", "Model"] "M3E"
  let specs := getCameraSpecs make model bag
  if distanceToBladeMeters ≤ 0 then
    Except.error "Invalid distance to blade: must be greater than 0"
  else
    let gsd_width_m_per_px :=
      specs.sensor_width * distanceToBladeMeters / (specs.focal_length * imageWidth)
    let gsd_height_m_per_px :=
      specs.sensor_height * distanceToBladeMeters / (specs.focal_length * imageHeight)
    let gsd_avg_m_per_px := (gsd_width_m_per_px + gsd_height_m_per_px) / 2
    let gsd_cm_per_pixel := gsd_avg_m_per_px * 100
    let altitudeAboveGround := parseAltitude bag
    Except.ok
      ⟨gsd_width_m_per_px, gsd_height_m_per_px, gsd_cm_per_pixel, altitudeAboveGround,
       distanceToBladeMeters,
       if 0 < altitudeAboveGround then "relative_altitude" else "estimated",
       distanceSource, distanceConfidence⟩

/-- The result record of `calculateEstimatedGSD` (app/lib/blade-utils.ts
lines 410-414). -/
structure EstimatedGSD where
  gsdWidthCmPerPx : ℚ
  gsdHeightCmPerPx : ℚ
  gsdAvgCmPerPx : ℚ
deriving DecidableEq, Repr

/-- The display-estimation GSD helper `calculateEstimatedGSD`
(app/lib/blade-utils.ts lines 403-429).  It performs no input
validation. -/
def calculateEstimatedGSD (distanceToBladeM focalLengthMm sensorWidthMm sensorHeightMm
    imageWidthPx imageHeightPx : ℚ) : EstimatedGSD :=
  let gsdWidthMPerPx := sensorWidthMm * distanceToBladeM / (focalLengthMm * imageWidthPx)
  let gsdHeightMPerPx := sensorHeightMm * distanceToBladeM / (focalLengthMm * imageHeightPx)
  let gsdWidthCmPerPx := gsdWidthMPerPx * 100
  let gsdHeightCmPerPx := gsdHeightMPerPx * 100
  ⟨gsdWidthCmPerPx, gsdHeightCmPerPx, (gsdWidthCmPerPx + gsdHeightCmPerPx) / 2⟩

/-- The blade-metrics record (app/lib/blade-utils.ts, `BladeMetrics`). -/
structure BladeMetrics where
  lengthMeters : ℚ
  lengthPixels : ℚ
  minAltitude : ℚ
  maxAltitude : ℚ
  altitudeRange : ℚ
  totalImages : ℕ
  averageSpacing : ℚ
  pixelsPerMeter : ℚ
deriving DecidableEq, Repr

/-- The altitude list shared by `calculateBladeMetrics` and
`getBladeCoverage` (app/lib/blade-utils.ts lines 25-28 and 125-128):
per-image `gsd.flight_height`, filtered to positive values, sorted
ascending. -/
def positiveAltitudesSorted (images : List TurbineImage) : List ℚ :=
  sortAsc ((images.map (fun img => img.gsd.flight_height)).filter (fun a => decide (0 < a)))

/-- The blade-metrics computation `calculateBladeMetrics`
(app/lib/blade-utils.ts lines 7-68).  The two early returns of the
JavaScript (empty image list, empty positive-altitude list) produce the
same record — `totalImages` is `images.length` in both — so they are
collapsed into the single empty-altitude branch. -/
def calculateBladeMetrics (images : List TurbineImage) (pixelsPerMeter : ℚ) : BladeMetrics :=
  match positiveAltitudesSorted images with
  | [] => ⟨0, 0, 0, 0, 0, images.length, 0, pixelsPerMeter⟩
  | a :: rest =>
    let altitudes := a :: rest
    let minAltitude := a
    let maxAltitude := altitudes.getLastD 0
    let altitudeRange := maxAltitude - minAltitude
    let lengthMeters := altitudeRange
    let lengthPixels := max 200 (min 500 (lengthMeters * pixelsPerMeter))
    let averageSpacing :=
      if 1 < altitudes.length then altitudeRange / ((altitudes.length - 1 : ℕ) : ℚ) else 0
    ⟨lengthMeters, lengthPixels, minAltitude, maxAltitude, altitudeRange,
     images.length, averageSpacing, pixelsPerMeter⟩

/-- The per-image position record (app/lib/blade-utils.ts,
`ImagePosition`). -/
structure ImagePosition where
  altitudeFromBase : ℚ
  percentageFromBase : ℚ
  positionPixels : ℚ
  imageIndex : ℕ
  relativePosition : ℚ
deriving DecidableEq, Repr

/-- The position-mapping operation `calculateImagePosition`
(app/lib/blade-utils.ts lines 73-105).  `image?.gsd?.flight_height ||
bladeMetrics.minAltitude` falls back to the metrics' minimum altitude when
the stored flight height is `0` (the falsy case in scope).  Only
`positionPixels` is clamped; `relativePosition` is returned as the raw
ratio. -/
def calculateImagePosition (image : TurbineImage) (bladeMetrics : BladeMetrics) :
    ImagePosition :=
  let currentAltitude :=
    if image.gsd.flight_height = 0 then bladeMetrics.minAltitude else image.gsd.flight_height
  let altitudeFromBase := currentAltitude - bladeMetrics.minAltitude
  let percentageFromBase :=
    if 0 < bladeMetrics.altitudeRange then
      altitudeFromBase / bladeMetrics.altitudeRange * 100
    else 0
  let relativePosition :=
    if 0 < bladeMetrics.altitudeRange then altitudeFromBase / bladeMetrics.altitudeRange
    else 0
  let positionPixels :=
    bladeMetrics.lengthPixels - relativePosition * bladeMetrics.lengthPixels
  ⟨altitudeFromBase, percentageFromBase,
   max 4 (min (bladeMetrics.lengthPixels - 4) positionPixels), 0, relativePosition⟩

/-- One coverage gap `{ start, end, size }` (app/lib/blade-utils.ts lines
147-161; `start`/`end` renamed to avoid the Lean keyword). -/
structure CoverageGap where
  gapStart : ℚ
  gapEnd : ℚ
  size : ℚ
deriving DecidableEq, Repr

/-- One density-map bin `{ altitude, imageCount }` (app/lib/blade-utils.ts
lines 167-182). -/
structure DensityBin where
  altitude : ℚ
  imageCount : ℕ
deriving DecidableEq, Repr

/-- The coverage record returned by `getBladeCoverage`
(app/lib/blade-utils.ts lines 110-114). -/
structure BladeCoverage where
  totalCoverage : ℚ
  gaps : List CoverageGap
  densityMap : List DensityBin
  qualityScore : ℚ
deriving DecidableEq, Repr

/-- The coverage computation `getBladeCoverage` (app/lib/blade-utils.ts
lines 110-214): gap detection at threshold `2.5 ×` average spacing,
density map of `clamp(floor(n/2), 5, 20)` half-open bins
`[binStart, binEnd)` over `[min, max]`, and the 0-100 quality score.  The
two identical early returns of the JavaScript are collapsed into the
empty-altitude branch. -/
def getBladeCoverage (images : List TurbineImage) : BladeCoverage :=
  match positiveAltitudesSorted images with
  | [] => ⟨0, [], [], 0⟩
  | a :: rest =>
    let altitudes := a :: rest
    let minAltitude := a
    let maxAltitude := altitudes.getLastD 0
    let totalRange := maxAltitude - minAltitude
    let totalCoverage : ℚ := if 0 < totalRange then 100 else 0
    let gaps :=
      if 1 < altitudes.length then
        let avgSpacing := totalRange / ((altitudes.length - 1 : ℕ) : ℚ)
        let gapThreshold := avgSpacing * 2.5
        (altitudes.zip altitudes.tail).filterMap (fun p =>
          if gapThreshold < p.2 - p.1 then some ⟨p.1, p.2, p.2 - p.1⟩ else none)
      else []
    let binCount := min 20 (max 5 (altitudes.length / 2))
    let binSize := totalRange / (binCount : ℚ)
    let densityMap := (List.range binCount).map (fun (i : ℕ) =>
      let binStart := minAltitude + (i : ℚ) * binSize
      let binEnd := binStart + binSize
      DensityBin.mk (binStart + binSize / 2)
        (altitudes.filter (fun alt => decide (binStart ≤ alt ∧ alt < binEnd))).length)
    let gapPenalty :=
      if 0 < totalRange then ((gaps.map (fun g => g.size)).sum / totalRange) * 50 else 0
    let score1 := 100 - gapPenalty
    let avgDensity := if 0 < totalRange then (altitudes.length : ℚ) / totalRange else 0
    let score2 := if avgDensity < 0.1 then score1 - 30 else score1
    let score3 := if 20 ≤ altitudes.length then score2 + 10 else score2
    ⟨totalCoverage, gaps, densityMap, max 0 (min 100 score3)⟩

/-- A point in image pixel space (components real-valued for the
measurement mapper). -/
structure RPoint where
  x : ℝ
  y : ℝ

/-- The blade context handed to the measurement overlay
(carousel-measurement.tsx props): minimum altitude, current image
altitude and blade length. -/
structure BladeContext where
  currentAltitude : ℝ
  minAltitude : ℝ
  bladeLength : ℝ

/-- The absolute-position record produced by the measurement mapper
(carousel-measurement.tsx lines 791-796). -/
structure AbsolutePosition where
  altitude : ℝ
  baseAltitude : ℝ
  relativeHeight : ℝ
  bladePercentage : ℝ

/-- The full result of the measurement mapper (carousel-measurement.tsx
lines 799-805).  `valid` is the boolean `pixelDistance > 2`, modelled as a
proposition. -/
structure MeasureOutcome where
  distance : ℝ
  distanceCm : ℝ
  pixelDistance : ℝ
  absolutePosition : Option AbsolutePosition
  valid : Prop

/-- The measurement-to-absolute-position mapper `calculateDistance`
(carousel-measurement.tsx lines 754-808), with `isValidGSD =
gsdCmPerPixel > 0` (line 637) folded in as the guard.  The second endpoint
is named `finish` because `end` is a Lean keyword.  The `safeNumber`
wrappers of the source are the identity on real-valued inputs (they only
replace `null`/`undefined`/`NaN`, which have no counterpart in the
embedding). -/
noncomputable def calculateDistance (gsdCmPerPixel : ℝ)
    (bladeContext : Option BladeContext) (start finish : RPoint) : MeasureOutcome :=
  if 0 < gsdCmPerPixel then
    let pixelDistance :=
      Real.sqrt ((finish.x - start.x) ^ 2 + (finish.y - start.y) ^ 2)
    let realDistanceCm := pixelDistance * gsdCmPerPixel
    let realDistanceM := realDistanceCm / 100
    let absolutePosition := bladeContext.map (fun ctx =>
      let midPointY := (start.y + finish.y) / 2
      let relativeHeightCm := midPointY * gsdCmPerPixel
      let relativeHeightM := relativeHeightCm / 100
      let absoluteAltitude := ctx.currentAltitude + relativeHeightM
      let bladePercentage :=
        ((absoluteAltitude - ctx.minAltitude) / ctx.bladeLength) * 100
      AbsolutePosition.mk absoluteAltitude ctx.currentAltitude relativeHeightM
        (max 0 (min 100 bladePercentage)))
    ⟨realDistanceM, realDistanceCm, pixelDistance, absolutePosition, 2 < pixelDistance⟩
  else ⟨0, 0, 0, none, False⟩

/-- One file of an upload batch, reduced to the data the ingestion
decisions read: the extracted metadata bag, pixel dimensions, the blade
and side labels produced by `extractBladeAndSide`, and the optional manual
distance from the per-file metadata.  (File bytes, thumbnails and paths
are I/O mechanics outside the embedding.) -/
structure UploadFile where
  name : String
  exif : ExifBag
  width : ℚ
  height : ℚ
  blade : String
  side : String
  manualDistance : Option ℚ

/-- The per-image ingestion pipeline: the body of the `try` block of the
upload loop (app/api/upload/route.ts lines 389-532), reduced to its
decision structure.  In order: the empty-EXIF check, distance resolution
via `extractBladeDistance`, the manual-distance step, the interpolation
fallback via `calculateDistanceStatistics` (confidence downgraded one
level), the `[0.5, 100]` blade-distance validation, `calculateGSDForTurbine`,
and the `(0.001, 50)` GSD plausibility check.  Error strings keep the
fixed prefix of the thrown messages (the interpolated numeric fragments
are omitted). -/
def processUploadImage (tx : String → List ℚ) (existing : List TurbineImage)
    (f : UploadFile) : Except String TurbineImage :=
  if f.exif = [] then Except.error "No EXIF data found"
  else
    let info := extractBladeDistance tx f.exif
    let manualStep : Except String (ℚ × String × Confidence) :=
      match f.manualDistance with
      | some m =>
        if 0 < m then
          if info.distance = 0 then Except.ok (m, "manual_input", Confidence.high)
          else Except.error "Manual distance provided but no distance found in EXIF metadata"
        else Except.ok (info.distance, info.source, info.confidence)
      | none => Except.ok (info.distance, info.source, info.confidence)
    match manualStep with
    | Except.error e => Except.error e
    | Except.ok (d0, src0, conf0) =>
      let interpStep : Except String (ℚ × String × Confidence) :=
        if d0 = 0 then
          let stats := calculateDistanceStatistics existing f.blade f.side
          if 0 < stats.meanDistance then
            Except.ok (stats.medianDistance,
              "interpolated_from_" ++ toString stats.validDistances.length ++ "_images",
              if stats.confidence = Confidence.high then Confidence.medium else Confidence.low)
          else
            Except.error "No distance to blade found in EXIF metadata and no existing images available for interpolation"
        else Except.ok (d0, src0, conf0)
      match interpStep with
      | Except.error e => Except.error e
      | Except.ok (d, src, conf) =>
        if d < 0.5 ∨ 100 < d then
          Except.error "Distance to blade is outside reasonable range (0.5m - 100m)"
        else
          match calculateGSDForTurbine f.exif f.width f.height d src conf with
          | Except.error e => Except.error e
          | Except.ok gsd =>
            if gsd.gsd_cm_per_pixel < 0.001 ∨ 50 < gsd.gsd_cm_per_pixel then
              Except.error "Calculated GSD is unrealistic"
            else Except.ok ⟨f.blade, f.side, gsd⟩

/-- The batch loop of `POST` (app/api/upload/route.ts lines 385-541): each
file is processed inside its own `try`/`catch`; a success is appended to
`processedImages`, a failure appends `name: message` to `errors` and the
loop continues.  `existing` is the snapshot loaded once before the loop
and never updated inside it. -/
def processUploadBatch (tx : String → List ℚ) (existing : List TurbineImage)
    (files : List UploadFile) : List TurbineImage × List String :=
  files.foldl (fun acc f =>
    match processUploadImage tx existing f with
    | Except.ok img => (acc.1 ++ [img], acc.2)
    | Except.error e => (acc.1, acc.2 ++ [f.name ++ ": " ++ e])) ([], [])

/-- Test-image constructor: a `TurbineImage` with the given blade, side,
stored distance, flight height and distance confidence (remaining GSD
fields zeroed — they are not read by the functions under test). -/
def mkSample (blade side : String) (dist fh : ℚ) (conf : Confidence) : TurbineImage :=
  ⟨blade, side, ⟨0, 0, 0, fh, dist, "", "test", conf⟩⟩

/-- Two images at altitudes 10 and 50, used as a concrete blade set. -/
def twoAltitudeImages : List TurbineImage :=
  [mkSample "A" "TE" 30 10 Confidence.medium, mkSample "A" "TE" 30 50 Confidence.medium]

/-- Four same-blade/same-side images with distances 10, 20, 30, 40. -/
def fourDistanceImages : List TurbineImage :=
  [mkSample "A" "TE" 10 5 Confidence.medium, mkSample "A" "TE" 20 6 Confidence.medium,
   mkSample "A" "TE" 30 7 Confidence.medium, mkSample "A" "TE" 40 8 Confidence.medium]

/-- Two blade-A/TE samples plus ten blade-B samples, all with confidence
`medium` and positive distances: the fallback scenario of §4.3. -/
def twelveMixedImages : List TurbineImage :=
  [mkSample "A" "TE" 30 10 Confidence.medium, mkSample "A" "TE" 32 12 Confidence.medium,
   mkSample "B" "TE" 28 14 Confidence.medium, mkSample "B" "TE" 29 16 Confidence.medium,
   mkSample "B" "TE" 30 18 Confidence.medium, mkSample "B" "TE" 31 20 Confidence.medium,
   mkSample "B" "TE" 32 22 Confidence.medium, mkSample "B" "TE" 33 24 Confidence.medium,
   mkSample "B" "TE" 34 26 Confidence.medium, mkSample "B" "TE" 35 28 Confidence.medium,
   mkSample "B" "TE" 36 30 Confidence.medium, mkSample "B" "TE" 37 32 Confidence.medium]

/-- A concrete blade-metrics record (range 10-50, length 40). -/
def witnessMetrics : BladeMetrics := ⟨40, 200, 10, 50, 40, 2, 40, 3⟩

/-- All distance-bearing tag names recognized by either resolver except
the two focus fields (used to say a bag carries only focus fields). -/
def nonFocusDistanceFields : List String :=
  ["EXIF:UserComment", "UserComment", "Comment", "XMP:UserComment",
   "IPTC:SpecialInstructions", "ImageDescription", "XMP:Description", "Comments",
   "EXIF:SubjectDistance", "SubjectDistance", "Camera:SubjectDistance",
   "Composite:SubjectDistance", "XMP:SubjectDistance"]

/-- All distance-bearing tag names recognized by either resolver except
`"EXIF:SubjectDistance"` (used to say a bag carries only that field). -/
def nonExifSubjectFields : List String :=
  ["EXIF:UserComment", "UserComment", "Comment", "XMP:UserComment",
   "IPTC:SpecialInstructions", "ImageDescription", "XMP:Description", "Comments",
   "SubjectDistance", "Camera:SubjectDistance", "Composite:SubjectDistance",
   "XMP:SubjectDistance", "FocusDistance", "HyperfocalDistance"]

lemma textPatternCandidate_of_none (tx : String → List ℚ) (bag : ExifBag) (f : String)
    (h : lookupTag bag f = none) : textPatternCandidate tx bag f = none := by
  simp [textPatternCandidate, h]

lemma numericFieldCandidate_of_none (bag : ExifBag) (fc : String × Confidence)
    (h : lookupTag bag fc.1 = none) : numericFieldCandidate bag fc = none := by
  simp [numericFieldCandidate, h]

lemma uploadCommentCandidate_of_none (tx : String → List ℚ) (bag : ExifBag) (f : String)
    (h : lookupTag bag f = none) : uploadCommentCandidate tx bag f = none := by
  simp [uploadCommentCandidate, h]

lemma uploadSubjectCandidate_of_none (bag : ExifBag) (f : String)
    (h : lookupTag bag f = none) : uploadSubjectCandidate bag f = none := by
  simp [uploadSubjectCandidate, h]

lemma numericFieldCandidate_props (bag : ExifBag) (fc : String × Confidence)
    (r : DistanceResult) (h : numericFieldCandidate bag fc = some r) :
    r.source = fc.1 ∧ r.confidence = fc.2 := by
  unfold numericFieldCandidate at h
  split at h
  · split at h
    · cases h
      exact ⟨rfl, rfl⟩
    · cases h
  · cases h

lemma jsParseFloat_thirty : jsParseFloat "30" = some 30 := by
  simp +decide [jsParseFloat, digitsToNat]

lemma uploadSubjectCandidate_thirty (bag : ExifBag) (f : String)
    (h : lookupTag bag f = some (ExifValue.str "30")) :
    uploadSubjectCandidate bag f = some ⟨30, f, Confidence.medium, some (ExifValue.str "30")⟩ := by
  simp +decide [uploadSubjectCandidate, h, jsTruthy, parseFloatValue, jsParseFloat_thirty]
  norm_num

/-- C5: whenever fewer than 3 existing images match the requested blade
and side (with positive stored distance and confidence not `"low"`), the
interpolation estimator computes its whole statistics record — mean,
median, sorted valid distances and confidence — from the full population
of images passing the same confidence filter. -/
theorem c5_fallback_to_full_population (images : List TurbineImage) (blade side : String)
    (h : (images.filter (sameBladeSideFilter blade side)).length < 3) :
    calculateDistanceStatistics images blade side =
      statsFromImages (images.filter confidenceFilter) := by
  have hlt : ¬ 3 ≤ (images.filter (sameBladeSideFilter blade side)).length := by omega
  simp only [calculateDistanceStatistics, if_neg hlt]

/-- C5 witness: with 2 same-blade/side samples and 10 other-blade samples,
all with confidence ≠ low, the estimator falls back to all 12 samples. -/
theorem c5_witness :
    (twelveMixedImages.filter (sameBladeSideFilter "A" "TE")).length < 3 ∧
    calculateDistanceStatistics twelveMixedImages "A" "TE" =
      statsFromImages (twelveMixedImages.filter confidenceFilter) ∧
    (statsFromImages (twelveMixedImages.filter confidenceFilter)).validDistances.length = 12 :=
  ⟨by decide, c5_fallback_to_full_population twelveMixedImages "A" "TE" (by decide), by decide⟩

/-- C4 counterexample: with the four same-blade/side distances
10, 20, 30, 40 the estimator's `medianDistance` is 30 — the upper-middle
element of the ascending-sorted array — not the lower-middle element 20
the claim asserts. -/
theorem c4_counterexample :
    (calculateDistanceStatistics fourDistanceImages "A" "TE").medianDistance = 30 ∧
    (calculateDistanceStatistics fourDistanceImages "A" "TE").medianDistance ≠ 20 := by
  constructor <;> decide

lemma calculateDistanceStatistics_eq_statsFromImages (images : List TurbineImage)
    (blade side : String) :
    calculateDistanceStatistics images blade side =
      statsFromImages (if 3 ≤ (images.filter (sameBladeSideFilter blade side)).length
        then images.filter (sameBladeSideFilter blade side)
        else images.filter confidenceFilter) := rfl

lemma statsFromImages_median_even (relevant : List TurbineImage) (k : ℕ)
    (h : (statsFromImages relevant).validDistances.length = 2 * k + 2) :
    (statsFromImages relevant).medianDistance =
      (statsFromImages relevant).validDistances.getD (k + 1) 0 := by
  simp only [statsFromImages] at h ⊢
  by_cases hnil : relevant.map (fun img => img.gsd.distance_to_blade) = []
  · rw [if_pos hnil] at h
    simp at h
  · rw [if_neg hnil] at h ⊢
    have hlen : (sortAsc (relevant.map (fun img => img.gsd.distance_to_blade))).length
        = 2 * k + 2 := h
    show (sortAsc (relevant.map (fun img => img.gsd.distance_to_blade))).getD
        ((sortAsc (relevant.map (fun img => img.gsd.distance_to_blade))).length / 2) 0 =
      (sortAsc (relevant.map (fun img => img.gsd.distance_to_blade))).getD (k + 1) 0
    rw [hlen]
    congr 1
    omega

/-- C4 (amended): for every sample population whose valid-distance list
has even length `2k + 2`, the estimator's `medianDistance` is the element
at index `k + 1` (equivalently `floor(n/2)`) of the ascending-sorted
array — the upper-middle of the two central elements, not the
lower-middle one. -/
theorem c4_even_median_is_upper_middle (images : List TurbineImage) (blade side : String)
    (k : ℕ)
    (h : (calculateDistanceStatistics images blade side).validDistances.length = 2 * k + 2) :
    (calculateDistanceStatistics images blade side).medianDistance =
      (calculateDistanceStatistics images blade side).validDistances.getD (k + 1) 0 := by
  rw [calculateDistanceStatistics_eq_statsFromImages] at h ⊢
  exact statsFromImages_median_even _ k h

/-- C4 witness for the amended theorem: the four-image population has
valid-distance length `2·1 + 2` and median at index 2. -/
theorem c4_witness :
    (calculateDistanceStatistics fourDistanceImages "A" "TE").validDistances.length = 2 * 1 + 2 ∧
    (calculateDistanceStatistics fourDistanceImages "A" "TE").medianDistance =
      (calculateDistanceStatistics fourDistanceImages "A" "TE").validDistances.getD (1 + 1) 0 :=
  ⟨by decide, c4_even_median_is_upper_middle fourDistanceImages "A" "TE" 1 (by decide)⟩

/-- C8 counterexample: the display-estimation GSD helper
`calculateEstimatedGSD` performs no distance validation — at
`distance_m = 0` it silently returns GSD 0 instead of failing with an
`InvalidDistance` error. -/
theorem c8_counterexample :
    calculateEstimatedGSD 0 12.29 17.3 13.0 5280 3956 = ⟨0, 0, 0⟩ := by
  norm_num [calculateEstimatedGSD]

/-- C8 (amended): the upload-time GSD calculation `calculateGSDForTurbine`
rejects every `distance_m ≤ 0` with the invalid-distance error; the
display-estimation helper `calculateEstimatedGSD` performs no such check
(see the counterexample, where it silently returns 0). -/
theorem c8_invalid_distance_rejected (bag : ExifBag) (w h d : ℚ) (src : String)
    (conf : Confidence) (hd : d ≤ 0) :
    calculateGSDForTurbine bag w h d src conf =
      Except.error "Invalid distance to blade: must be greater than 0" := by
  simp only [calculateGSDForTurbine, if_pos hd]

/-- C8 witness: distance 0 is rejected by `calculateGSDForTurbine`. -/
theorem c8_witness :
    (0 : ℚ) ≤ 0 ∧
    calculateGSDForTurbine [] 5280 3956 0 "calculated" Confidence.medium =
      Except.error "Invalid distance to blade: must be greater than 0" :=
  ⟨le_refl 0, c8_invalid_distance_rejected [] 5280 3956 0 "calculated" Confidence.medium (le_refl 0)⟩

/-- C2 counterexample: `relativePosition` is not clamped.  For an image at
altitude 100 positioned against the metrics of a blade spanning altitudes
10-50, `relativePosition = (100 - 10) / 40 = 2.25 > 1`. -/
theorem c2_counterexample :
    1 < (calculateImagePosition (mkSample "A" "TE" 30 100 Confidence.medium)
      (calculateBladeMetrics twoAltitudeImages 3)).relativePosition := by
  have halts : positiveAltitudesSorted twoAltitudeImages = [10, 50] := by decide
  simp only [calculateBladeMetrics, halts, calculateImagePosition, mkSample]
  norm_num [List.getLastD]

/-- C2 (amended): `relativePosition` is the raw ratio
`(altitude - minAltitude) / altitudeRange` with no clamping (only
`positionPixels` is clamped); it lies in `[0, 1]` exactly when the image's
effective altitude lies inside the metrics' altitude range (the stored
flight height, or the metrics' minimum when the flight height is 0). -/
theorem c2_relative_position_in_range (image : TurbineImage) (m : BladeMetrics)
    (hrange : m.altitudeRange = m.maxAltitude - m.minAltitude)
    (h : image.gsd.flight_height = 0 ∨
      (m.minAltitude ≤ image.gsd.flight_height ∧ image.gsd.flight_height ≤ m.maxAltitude)) :
    0 ≤ (calculateImagePosition image m).relativePosition ∧
      (calculateImagePosition image m).relativePosition ≤ 1 := by
  simp only [calculateImagePosition]
  by_cases hz : image.gsd.flight_height = 0
  · rw [if_pos hz]
    by_cases hr : 0 < m.altitudeRange
    · rw [if_pos hr]
      constructor
      · rw [sub_self, zero_div]
      · rw [sub_self, zero_div]
        norm_num
    · rw [if_neg hr]
      norm_num
  · rw [if_neg hz]
    rcases h with h0 | ⟨h1, h2⟩
    · exact absurd h0 hz
    by_cases hr : 0 < m.altitudeRange
    · rw [if_pos hr]
      constructor
      · exact div_nonneg (by linarith) (le_of_lt hr)
      · rw [div_le_one hr]
        linarith
    · rw [if_neg hr]
      norm_num

/-- C2 witness for the amended theorem: an image at altitude 30 inside the
range 10-50 has `relativePosition` within `[0, 1]`. -/
theorem c2_witness :
    witnessMetrics.altitudeRange = witnessMetrics.maxAltitude - witnessMetrics.minAltitude ∧
    0 ≤ (calculateImagePosition (mkSample "A" "TE" 30 30 Confidence.medium)
      witnessMetrics).relativePosition ∧
    (calculateImagePosition (mkSample "A" "TE" 30 30 Confidence.medium)
      witnessMetrics).relativePosition ≤ 1 := by
  refine ⟨by norm_num [witnessMetrics], ?_, ?_⟩
  · exact (c2_relative_position_in_range (mkSample "A" "TE" 30 30 Confidence.medium)
      witnessMetrics (by norm_num [witnessMetrics])
      (Or.inr ⟨by norm_num [witnessMetrics, mkSample], by norm_num [witnessMetrics, mkSample]⟩)).1
  · exact (c2_relative_position_in_range (mkSample "A" "TE" 30 30 Confidence.medium)
      witnessMetrics (by norm_num [witnessMetrics])
      (Or.inr ⟨by norm_num [witnessMetrics, mkSample], by norm_num [witnessMetrics, mkSample]⟩)).2

/-- C3 counterexample: on the bag whose only entry is
`"EXIF:SubjectDistance"` with the string value `"30"`, the read-time
resolver `findDistanceInExif` does not return distance 30 — its numeric
pass accepts only number-typed values, so it returns the unresolved
sentinel. -/
theorem c3_counterexample :
    (findDistanceInExif (fun _ => [])
      [("EXIF:SubjectDistance", ExifValue.str "30")]).distance = 0 ∧
    (findDistanceInExif (fun _ => [])
      [("EXIF:SubjectDistance", ExifValue.str "30")]).source = "not_found" ∧
    (findDistanceInExif (fun _ => [])
      [("EXIF:SubjectDistance", ExifValue.str "30")]).distance ≠ 30 := by
  refine ⟨by decide, by decide, by decide⟩

/-- C3 (amended): for every metadata bag whose only distance-bearing entry
is `"EXIF:SubjectDistance"` with the string value `"30"`, the upload-time
resolver `extractBladeDistance` returns distance 30 with source
`"EXIF:SubjectDistance"` and confidence medium (it `parseFloat`s string
values); the read-time resolver `findDistanceInExif` requires number-typed
values in its numeric pass and returns the unresolved sentinel instead. -/
theorem c3_subject_distance_string_resolution (bag : ExifBag)
    (hsub : lookupTag bag "EXIF:SubjectDistance" = some (ExifValue.str "30"))
    (habsent : ∀ f ∈ nonExifSubjectFields, lookupTag bag f = none) :
    (∀ tx, extractBladeDistance tx bag =
      ⟨30, "EXIF:SubjectDistance", Confidence.medium, some (ExifValue.str "30")⟩) ∧
    (∀ tx, findDistanceInExif tx bag = notFoundResult) := by
  have hUC := habsent "EXIF:UserComment" (by simp [nonExifSubjectFields])
  have hUC2 := habsent "UserComment" (by simp [nonExifSubjectFields])
  have hCm := habsent "Comment" (by simp [nonExifSubjectFields])
  have hXUC := habsent "XMP:UserComment" (by simp [nonExifSubjectFields])
  have hSI := habsent "IPTC:SpecialInstructions" (by simp [nonExifSubjectFields])
  have hID := habsent "ImageDescription" (by simp [nonExifSubjectFields])
  have hXD := habsent "XMP:Description" (by simp [nonExifSubjectFields])
  have hCs := habsent "Comments" (by simp [nonExifSubjectFields])
  have hSD := habsent "SubjectDistance" (by simp [nonExifSubjectFields])
  have hCSD := habsent "Camera:SubjectDistance" (by simp [nonExifSubjectFields])
  have hCoSD := habsent "Composite:SubjectDistance" (by simp [nonExifSubjectFields])
  have hXSD := habsent "XMP:SubjectDistance" (by simp [nonExifSubjectFields])
  have hFD := habsent "FocusDistance" (by simp [nonExifSubjectFields])
  have hHD := habsent "HyperfocalDistance" (by simp [nonExifSubjectFields])
  constructor
  · intro tx
    unfold extractBladeDistance
    rw [show uploadCommentFields.findSome? (uploadCommentCandidate tx bag) = none by
      simp [uploadCommentFields, List.findSome?,
        uploadCommentCandidate_of_none tx bag _ hUC,
        uploadCommentCandidate_of_none tx bag _ hUC2,
        uploadCommentCandidate_of_none tx bag _ hCm,
        uploadCommentCandidate_of_none tx bag _ hXUC,
        uploadCommentCandidate_of_none tx bag _ hSI,
        uploadCommentCandidate_of_none tx bag _ hID,
        uploadCommentCandidate_of_none tx bag _ hXD]]
    rw [show uploadSubjectFields.findSome? (uploadSubjectCandidate bag) =
        some ⟨30, "EXIF:SubjectDistance", Confidence.medium, some (ExifValue.str "30")⟩ by
      simp [uploadSubjectFields, List.findSome?,
        uploadSubjectCandidate_thirty bag _ hsub]]
  · intro tx
    unfold findDistanceInExif
    rw [show findTextFields.findSome? (textPatternCandidate tx bag) = none by
      simp [findTextFields, List.findSome?,
        textPatternCandidate_of_none tx bag _ hUC2,
        textPatternCandidate_of_none tx bag _ hUC,
        textPatternCandidate_of_none tx bag _ hID,
        textPatternCandidate_of_none tx bag _ hXD,
        textPatternCandidate_of_none tx bag _ hCs]]
    rw [show findNumericFields.findSome? (numericFieldCandidate bag) = none by
      simp [findNumericFields, List.findSome?, numericFieldCandidate, hSD, hsub, hCoSD,
        hXSD, hFD, hHD]]

/-- C3 witness for the amended theorem: the concrete one-entry bag. -/
theorem c3_witness :
    lookupTag [("EXIF:SubjectDistance", ExifValue.str "30")] "EXIF:SubjectDistance" =
      some (ExifValue.str "30") ∧
    (nonExifSubjectFields.all (fun f =>
      lookupTag [("EXIF:SubjectDistance", ExifValue.str "30")] f = none)) = true ∧
    extractBladeDistance (fun _ => []) [("EXIF:SubjectDistance", ExifValue.str "30")] =
      ⟨30, "EXIF:SubjectDistance", Confidence.medium, some (ExifValue.str "30")⟩ ∧
    findDistanceInExif (fun _ => []) [("EXIF:SubjectDistance", ExifValue.str "30")] =
      notFoundResult := by
  refine ⟨by decide, by decide, ?_, ?_⟩
  · exact (c3_subject_distance_string_resolution _ (by decide)
      (by intro f hf; revert hf; revert f; decide)).1 (fun _ => [])
  · exact (c3_subject_distance_string_resolution _ (by decide)
      (by intro f hf; revert hf; revert f; decide)).2 (fun _ => [])

/-- C7: for every measurement drawn with a valid GSD (`gsd > 0`) and a
supplied blade context, the mapper returns an absolute position whose
`altitude` is the image's current altitude plus the endpoints' vertical
midpoint converted through the GSD from pixels to centimeters and then to
meters, and whose `bladePercentage` is
`((absoluteAltitude - minAltitude) / bladeLength) * 100` clamped to
`[0, 100]`. -/
theorem c7_measurement_absolute_position (gsd : ℝ) (ctx : BladeContext) (s p : RPoint)
    (hg : 0 < gsd) :
    ∃ ap : AbsolutePosition,
      (calculateDistance gsd (some ctx) s p).absolutePosition = some ap ∧
      ap.altitude = ctx.currentAltitude + ((s.y + p.y) / 2 * gsd) / 100 ∧
      ap.relativeHeight = ((s.y + p.y) / 2 * gsd) / 100 ∧
      ap.baseAltitude = ctx.currentAltitude ∧
      ap.bladePercentage = max 0 (min 100
        (((ctx.currentAltitude + ((s.y + p.y) / 2 * gsd) / 100 - ctx.minAltitude) /
          ctx.bladeLength) * 100)) ∧
      0 ≤ ap.bladePercentage ∧ ap.bladePercentage ≤ 100 := by
  unfold calculateDistance
  rw [if_pos hg]
  refine ⟨_, rfl, rfl, rfl, rfl, rfl, le_max_left 0 _, ?_⟩
  exact max_le (by norm_num) (min_le_left _ _)

/-- C7 witness: a concrete measurement (endpoints `(0,0)`-`(3,4)`, GSD 10,
context altitude 20 over a blade from altitude 10 of length 40) has
absolute altitude 20.2 and blade percentage 25.5. -/
theorem c7_witness :
    (0 : ℝ) < 10 ∧
    ∃ ap : AbsolutePosition,
      (calculateDistance 10 (some ⟨20, 10, 40⟩) ⟨0, 0⟩ ⟨3, 4⟩).absolutePosition = some ap ∧
      ap.altitude = 20.2 ∧ ap.bladePercentage = 25.5 ∧
      0 ≤ ap.bladePercentage ∧ ap.bladePercentage ≤ 100 := by
  obtain ⟨ap, hap, halt, _, _, hpct, h0, h100⟩ :=
    c7_measurement_absolute_position 10 ⟨20, 10, 40⟩ ⟨0, 0⟩ ⟨3, 4⟩ (by norm_num)
  refine ⟨by norm_num, ap, hap, ?_, ?_, h0, h100⟩
  · rw [halt]
    norm_num
  · rw [hpct]
    rw [show ((((20 : ℝ) + (((0 : ℝ) + (4 : ℝ)) / 2 * 10) / 100 - 10) / 40) * 100) = 25.5 by
      norm_num]
    rw [min_eq_right (by norm_num), max_eq_right (by norm_num)]

/-- C9: the batch loop processes each file independently: the processed
list is exactly the per-file successes (in order) and the error list is
exactly the per-file failure messages (in order), so an ingestion error
on one image removes only that image and never aborts the processing of
the remaining files. -/
theorem c9_batch_errors_are_per_image (tx : String → List ℚ)
    (existing : List TurbineImage) (files : List UploadFile) :
    processUploadBatch tx existing files =
      (files.filterMap (fun f => (processUploadImage tx existing f).toOption),
       files.filterMap (fun f => match processUploadImage tx existing f with
         | Except.ok _ => none
         | Except.error e => some (f.name ++ ": " ++ e))) := by
  suffices haux : ∀ (fs : List UploadFile) (acc : List TurbineImage × List String),
      fs.foldl (fun acc f => match processUploadImage tx existing f with
        | Except.ok img => (acc.1 ++ [img], acc.2)
        | Except.error e => (acc.1, acc.2 ++ [f.name ++ ": " ++ e])) acc =
      (acc.1 ++ fs.filterMap (fun f => (processUploadImage tx existing f).toOption),
       acc.2 ++ fs.filterMap (fun f => match processUploadImage tx existing f with
         | Except.ok _ => none
         | Except.error e => some (f.name ++ ": " ++ e))) by
    unfold processUploadBatch
    rw [haux]
    simp
  intro fs
  induction fs with
  | nil =>
    intro acc
    simp
  | cons f rest ih =>
    intro acc
    simp only [List.foldl_cons, List.filterMap_cons]
    rcases hf : processUploadImage tx existing f with e | img
    · simp only [hf]
      rw [ih]
      simp [Except.toOption, List.append_assoc]
    · simp only [hf]
      rw [ih]
      simp [Except.toOption, List.append_assoc]

lemma sortAsc_sorted (l : List ℚ) : (sortAsc l).Sorted (· ≤ ·) :=
  List.sorted_insertionSort (· ≤ ·) l

lemma getLastD_mem_of_ne_nil (l : List ℚ) (d : ℚ) (h : l ≠ []) : l.getLastD d ∈ l := by
  induction l generalizing d with
  | nil => exact absurd rfl h
  | cons c t ih =>
    rw [List.getLastD_cons]
    cases t with
    | nil => simp [List.getLastD]
    | cons e t2 => exact List.mem_cons_of_mem c (ih c (by simp))

lemma sorted_getLastD_bound (l : List ℚ) (d : ℚ) (hs : l.Sorted (· ≤ ·))
    (hd : ∀ x ∈ l, d ≤ x) : d ≤ l.getLastD d ∧ ∀ a ∈ l, a ≤ l.getLastD d := by
  induction l generalizing d with
  | nil => simp
  | cons c t ih =>
    rcases List.sorted_cons.mp hs with ⟨hc, ht⟩
    have hdc : d ≤ c := hd c (List.mem_cons_self c t)
    obtain ⟨h1, h2⟩ := ih c ht hc
    rw [List.getLastD_cons]
    refine ⟨le_trans hdc h1, ?_⟩
    intro a ha
    rcases List.mem_cons.mp ha with rfl | hat
    · exact h1
    · exact h2 a hat


/-- C6: for every image set with a non-empty set of positive altitudes,
`minAltitude`/`maxAltitude` are the minimum and maximum of those
altitudes, `lengthMeters` equals their difference `max - min`, and
`lengthPixels` (the clamp of `lengthMeters * 3` for the default
`pixelsPerMeter = 3`) always lies in `[200, 500]`. -/
theorem c6_blade_metrics_length (images : List TurbineImage)
    (h : positiveAltitudesSorted images ≠ []) :
    (calculateBladeMetrics images 3).minAltitude ∈ positiveAltitudesSorted images ∧
    (calculateBladeMetrics images 3).maxAltitude ∈ positiveAltitudesSorted images ∧
    (∀ a ∈ positiveAltitudesSorted images,
      (calculateBladeMetrics images 3).minAltitude ≤ a ∧
      a ≤ (calculateBladeMetrics images 3).maxAltitude) ∧
    (calculateBladeMetrics images 3).lengthMeters =
      (calculateBladeMetrics images 3).maxAltitude -
        (calculateBladeMetrics images 3).minAltitude ∧
    200 ≤ (calculateBladeMetrics images 3).lengthPixels ∧
    (calculateBladeMetrics images 3).lengthPixels ≤ 500 := by
  rcases halts : positiveAltitudesSorted images with _ | ⟨a, rest⟩
  · exact absurd halts h
  have hsorted : (a :: rest).Sorted (· ≤ ·) := by
    rw [← halts]
    exact sortAsc_sorted _
  rcases List.sorted_cons.mp hsorted with ⟨hfirst, htail⟩
  obtain ⟨hle, hall⟩ := sorted_getLastD_bound rest a htail hfirst
  have hgl : (a :: rest).getLastD 0 = rest.getLastD a := List.getLastD_cons 0 a rest
  simp only [calculateBladeMetrics, halts]
  refine ⟨List.mem_cons_self a rest, ?_, ?_, trivial, le_max_left 200 _,
    max_le (by norm_num) (min_le_left _ _)⟩
  · exact getLastD_mem_of_ne_nil (a :: rest) 0 (List.cons_ne_nil a rest)
  · intro x hx
    rcases List.mem_cons.mp hx with rfl | hxt
    · exact ⟨le_refl x, by rw [hgl]; exact hle⟩
    · exact ⟨hfirst x hxt, by rw [hgl]; exact hall x hxt⟩

/-- C6 witness: the two-image blade set with altitudes 10 and 50. -/
theorem c6_witness :
    positiveAltitudesSorted twoAltitudeImages ≠ [] ∧
    (calculateBladeMetrics twoAltitudeImages 3).lengthMeters =
      (calculateBladeMetrics twoAltitudeImages 3).maxAltitude -
        (calculateBladeMetrics twoAltitudeImages 3).minAltitude ∧
    200 ≤ (calculateBladeMetrics twoAltitudeImages 3).lengthPixels ∧
    (calculateBladeMetrics twoAltitudeImages 3).lengthPixels ≤ 500 := by
  have h := c6_blade_metrics_length twoAltitudeImages (by decide)
  exact ⟨by decide, h.2.2.2.1, h.2.2.2.2.1, h.2.2.2.2.2⟩

/-- C1 counterexample: on the bag whose only entry is
`"HyperfocalDistance"` with the numeric value 50, the read-time resolver
returns the focus-derived value (not the unresolved sentinel), and the
downstream focus-misuse flag does not fire because
`"hyperfocaldistance"` does not contain the substring `"focus"`. -/
theorem c1_counterexample :
    (findDistanceInExif (fun _ => [])
      [("HyperfocalDistance", ExifValue.num 50)]).distance = 50 ∧
    (findDistanceInExif (fun _ => [])
      [("HyperfocalDistance", ExifValue.num 50)]).source = "HyperfocalDistance" ∧
    (findDistanceInExif (fun _ => [])
      [("HyperfocalDistance", ExifValue.num 50)]).source ≠ "not_found" ∧
    focusSourceFlagged "HyperfocalDistance" = false := by
  refine ⟨by decide, by decide, by decide, by decide⟩

/-- C1 (amended): for every metadata bag whose only distance-bearing
fields are `FocusDistance`/`HyperfocalDistance`, the upload-time resolver
`extractBladeDistance` (the one whose result becomes the stored
blade-measurement distance) returns the unresolved sentinel, so a
focus-derived value never becomes the blade-measurement distance; the
read-time `findDistanceInExif` either returns the sentinel or returns the
focus-derived value with confidence low and source
`FocusDistance`/`HyperfocalDistance`, and the downstream focus-misuse flag
fires for `"FocusDistance"` sources (but, per the counterexample, not for
`"HyperfocalDistance"`). -/
theorem c1_focus_never_blade_distance (bag : ExifBag)
    (habsent : ∀ f ∈ nonFocusDistanceFields, lookupTag bag f = none) :
    (∀ tx, extractBladeDistance tx bag = notFoundResult) ∧
    (∀ tx, findDistanceInExif tx bag = notFoundResult ∨
      ((findDistanceInExif tx bag).confidence = Confidence.low ∧
       ((findDistanceInExif tx bag).source = "FocusDistance" ∨
        (findDistanceInExif tx bag).source = "HyperfocalDistance"))) ∧
    focusSourceFlagged "FocusDistance" = true := by
  have hUC := habsent "EXIF:UserComment" (by simp [nonFocusDistanceFields])
  have hUC2 := habsent "UserComment" (by simp [nonFocusDistanceFields])
  have hCm := habsent "Comment" (by simp [nonFocusDistanceFields])
  have hXUC := habsent "XMP:UserComment" (by simp [nonFocusDistanceFields])
  have hSI := habsent "IPTC:SpecialInstructions" (by simp [nonFocusDistanceFields])
  have hID := habsent "ImageDescription" (by simp [nonFocusDistanceFields])
  have hXD := habsent "XMP:Description" (by simp [nonFocusDistanceFields])
  have hCs := habsent "Comments" (by simp [nonFocusDistanceFields])
  have hESD := habsent "EXIF:SubjectDistance" (by simp [nonFocusDistanceFields])
  have hSD := habsent "SubjectDistance" (by simp [nonFocusDistanceFields])
  have hCSD := habsent "Camera:SubjectDistance" (by simp [nonFocusDistanceFields])
  have hCoSD := habsent "Composite:SubjectDistance" (by simp [nonFocusDistanceFields])
  have hXSD := habsent "XMP:SubjectDistance" (by simp [nonFocusDistanceFields])
  refine ⟨?_, ?_, by decide⟩
  · intro tx
    unfold extractBladeDistance
    rw [show uploadCommentFields.findSome? (uploadCommentCandidate tx bag) = none by
      simp [uploadCommentFields, List.findSome?,
        uploadCommentCandidate_of_none tx bag _ hUC,
        uploadCommentCandidate_of_none tx bag _ hUC2,
        uploadCommentCandidate_of_none tx bag _ hCm,
        uploadCommentCandidate_of_none tx bag _ hXUC,
        uploadCommentCandidate_of_none tx bag _ hSI,
        uploadCommentCandidate_of_none tx bag _ hID,
        uploadCommentCandidate_of_none tx bag _ hXD]]
    rw [show uploadSubjectFields.findSome? (uploadSubjectCandidate bag) = none by
      simp [uploadSubjectFields, List.findSome?,
        uploadSubjectCandidate_of_none bag _ hESD,
        uploadSubjectCandidate_of_none bag _ hSD,
        uploadSubjectCandidate_of_none bag _ hCSD]]
  · intro tx
    have hfde : findDistanceInExif tx bag =
        match findNumericFields.findSome? (numericFieldCandidate bag) with
        | some r => r
        | none => notFoundResult := by
      unfold findDistanceInExif
      rw [show findTextFields.findSome? (textPatternCandidate tx bag) = none by
        simp [findTextFields, List.findSome?,
          textPatternCandidate_of_none tx bag _ hUC2,
          textPatternCandidate_of_none tx bag _ hUC,
          textPatternCandidate_of_none tx bag _ hID,
          textPatternCandidate_of_none tx bag _ hXD,
          textPatternCandidate_of_none tx bag _ hCs]]
    have e1 : numericFieldCandidate bag ("SubjectDistance", Confidence.medium) = none :=
      numericFieldCandidate_of_none bag _ hSD
    have e2 : numericFieldCandidate bag ("EXIF:SubjectDistance", Confidence.medium) = none :=
      numericFieldCandidate_of_none bag _ hESD
    have e3 : numericFieldCandidate bag ("Composite:SubjectDistance", Confidence.medium) = none :=
      numericFieldCandidate_of_none bag _ hCoSD
    have e4 : numericFieldCandidate bag ("XMP:SubjectDistance", Confidence.medium) = none :=
      numericFieldCandidate_of_none bag _ hXSD
    rcases hF : numericFieldCandidate bag ("FocusDistance", Confidence.low) with _ | rF
    · rcases hH : numericFieldCandidate bag ("HyperfocalDistance", Confidence.low) with _ | rH
      · left
        rw [hfde, show findNumericFields.findSome? (numericFieldCandidate bag) = none by
          simp [findNumericFields, List.findSome?, e1, e2, e3, e4, hF, hH]]
      · right
        have hprops := numericFieldCandidate_props bag _ rH hH
        rw [hfde, show findNumericFields.findSome? (numericFieldCandidate bag) = some rH by
          simp [findNumericFields, List.findSome?, e1, e2, e3, e4, hF, hH]]
        exact ⟨hprops.2, Or.inr hprops.1⟩
    · right
      have hprops := numericFieldCandidate_props bag _ rF hF
      rw [hfde, show findNumericFields.findSome? (numericFieldCandidate bag) = some rF by
        simp [findNumericFields, List.findSome?, e1, e2, e3, e4, hF]]
      exact ⟨hprops.2, Or.inl hprops.1⟩

/-- C1 witness for the amended theorem: the concrete bag holding only a
numeric `FocusDistance`. -/
theorem c1_witness :
    (nonFocusDistanceFields.all (fun f =>
      lookupTag [("FocusDistance", ExifValue.num 50)] f = none)) = true ∧
    extractBladeDistance (fun _ => []) [("FocusDistance", ExifValue.num 50)] =
      notFoundResult ∧
    (findDistanceInExif (fun _ => []) [("FocusDistance", ExifValue.num 50)] =
        notFoundResult ∨
      ((findDistanceInExif (fun _ => [])
          [("FocusDistance", ExifValue.num 50)]).confidence = Confidence.low ∧
       ((findDistanceInExif (fun _ => [])
          [("FocusDistance", ExifValue.num 50)]).source = "FocusDistance" ∨
        (findDistanceInExif (fun _ => [])
          [("FocusDistance", ExifValue.num 50)]).source = "HyperfocalDistance"))) := by
  have h := c1_focus_never_blade_distance [("FocusDistance", ExifValue.num 50)] (by decide)
  exact ⟨by decide, h.1 (fun _ => []), h.2.1 (fun _ => [])⟩

lemma list_range_map_sum (k : ℕ) (f : ℕ → ℕ) :
    ((List.range k).map f).sum = ∑ i in Finset.range k, f i := by
  induction k with
  | zero => simp
  | succ n ih =>
    rw [List.range_succ]
    simp [ih, Finset.sum_range_succ]

lemma filter_length_eq_sum (l : List ℚ) (p : ℚ → Bool) :
    (l.filter p).length = (l.map (fun x => if p x then 1 else 0)).sum := by
  induction l with
  | nil => simp
  | cons x t ih =>
    by_cases hx : p x
    · simp [List.filter_cons, hx, ih]
      omega
    · simp [List.filter_cons, hx, ih]

lemma sum_swap_list (l : List ℚ) (k : ℕ) (g : ℕ → ℚ → ℕ) :
    ∑ i in Finset.range k, (l.map (g i)).sum =
      (l.map (fun x => ∑ i in Finset.range k, g i x)).sum := by
  induction l with
  | nil => simp
  | cons x t ih =>
    simp [List.map_cons, List.sum_cons, Finset.sum_add_distrib, ih]

lemma indicator_sum_le_one (k : ℕ) (q : ℕ → Bool)
    (huniq : ∀ i j, q i = true → q j = true → i = j) :
    ∑ i in Finset.range k, (if q i then (1 : ℕ) else 0) ≤ 1 := by
  by_cases hex : ∃ i ∈ Finset.range k, q i = true
  · obtain ⟨i0, hi0, hq0⟩ := hex
    have hle : ∀ j ∈ Finset.range k,
        (if q j then (1 : ℕ) else 0) ≤ if j = i0 then 1 else 0 := by
      intro j hj
      by_cases hqj : q j = true
      · rw [if_pos hqj, if_pos (huniq j i0 hqj hq0)]
      · rw [if_neg hqj]
        exact Nat.zero_le _
    calc ∑ i in Finset.range k, (if q i then (1 : ℕ) else 0)
        ≤ ∑ j in Finset.range k, (if j = i0 then 1 else 0) := Finset.sum_le_sum hle
      _ = 1 := by rw [Finset.sum_ite_eq' (Finset.range k) i0 (fun _ => 1), if_pos hi0]
  · have hz : ∀ j ∈ Finset.range k, (if q j then (1 : ℕ) else 0) = 0 := by
      intro j hj
      rw [if_neg]
      intro hq
      exact hex ⟨j, hj, hq⟩
    rw [Finset.sum_congr rfl hz]
    simp

lemma map_sum_le_length (l : List ℚ) (c : ℚ → ℕ) (hone : ∀ x ∈ l, c x ≤ 1) :
    (l.map c).sum ≤ l.length := by
  induction l with
  | nil => simp
  | cons x t ih =>
    simp only [List.map_cons, List.sum_cons, List.length_cons]
    have hx := hone x (List.mem_cons_self x t)
    have ht := ih (fun y hy => hone y (List.mem_cons_of_mem x hy))
    omega

lemma bounded_sum_lt (l : List ℚ) (c : ℚ → ℕ) (b : ℚ) (hb : b ∈ l) (hzero : c b = 0)
    (hone : ∀ x ∈ l, c x ≤ 1) : (l.map c).sum < l.length := by
  obtain ⟨s, t, rfl⟩ := List.append_of_mem hb
  rw [List.map_append, List.sum_append, List.map_cons, List.sum_cons, hzero,
    List.length_append, List.length_cons]
  have h1 := map_sum_le_length s c (fun y hy => hone y (by simp [hy]))
  have h2 := map_sum_le_length t c (fun y hy => hone y (by simp [hy]))
  omega

lemma bin_unique {a s x : ℚ} (hs : 0 < s) {i j : ℕ}
    (hi : a + (i : ℚ) * s ≤ x ∧ x < a + (i : ℚ) * s + s)
    (hj : a + (j : ℚ) * s ≤ x ∧ x < a + (j : ℚ) * s + s) : i = j := by
  by_contra hne
  rcases Nat.lt_or_ge i j with hij | hij
  · have hc : ((i : ℚ) + 1) ≤ (j : ℚ) := by exact_mod_cast hij
    have h2 : ((i : ℚ) + 1) * s ≤ (j : ℚ) * s :=
      mul_le_mul_of_nonneg_right hc (le_of_lt hs)
    rw [add_mul, one_mul] at h2
    linarith [hi.2, hj.1]
  · have hji : j < i := by omega
    have hc : ((j : ℚ) + 1) ≤ (i : ℚ) := by exact_mod_cast hji
    have h2 : ((j : ℚ) + 1) * s ≤ (i : ℚ) * s :=
      mul_le_mul_of_nonneg_right hc (le_of_lt hs)
    rw [add_mul, one_mul] at h2
    linarith [hj.2, hi.1]

lemma max_not_in_bin {a s M : ℚ} {k i : ℕ} (hik : i < k) (hks : (k : ℚ) * s = M - a)
    (hs : 0 ≤ s) : ¬ (a + (i : ℚ) * s ≤ M ∧ M < a + (i : ℚ) * s + s) := by
  rintro ⟨h1, h2⟩
  have hc : ((i : ℚ) + 1) ≤ (k : ℚ) := by exact_mod_cast hik
  have h3 : ((i : ℚ) + 1) * s ≤ (k : ℚ) * s := mul_le_mul_of_nonneg_right hc hs
  rw [add_mul, one_mul] at h3
  linarith

/-- C10: each density-map bin counts altitudes in the half-open interval
`[binStart, binEnd)` and the last bin's end is exactly the maximum
altitude, so whenever the positive altitudes are not all equal, the images
at the maximum altitude fall into no bin and the total `imageCount` over
the density map is strictly less than the number of positive-altitude
images. -/
theorem c10_density_map_undercounts (images : List TurbineImage)
    (h : (positiveAltitudesSorted images).headD 0 <
      (positiveAltitudesSorted images).getLastD 0) :
    ((getBladeCoverage images).densityMap.map (fun b => b.imageCount)).sum <
      (positiveAltitudesSorted images).length := by
  rcases halts : positiveAltitudesSorted images with _ | ⟨a, rest⟩
  · rw [halts] at h
    simp at h
  rw [halts] at h
  simp only [List.headD_cons] at h
  simp only [getBladeCoverage, halts]
  rw [List.map_map]
  simp only [Function.comp_def]
  set M := (a :: rest).getLastD 0 with hMdef
  set k := 20 ⊓ (5 ⊔ (a :: rest).length / 2) with hkdef
  set s := (M - a) / (k : ℚ) with hsdef
  have hk5 : 5 ≤ k := le_min (by norm_num) (le_max_left 5 _)
  have hk0 : (0 : ℚ) < (k : ℚ) := by exact_mod_cast (by omega : 0 < k)
  have hspos : 0 < s := div_pos (by linarith) hk0
  have hks : (k : ℚ) * s = M - a := by
    rw [hsdef, mul_comm, div_mul_cancel₀ _ (ne_of_gt hk0)]
  rw [list_range_map_sum]
  rw [Finset.sum_congr rfl (fun i _ => filter_length_eq_sum (a :: rest) _)]
  rw [sum_swap_list]
  apply bounded_sum_lt _ _ M
  · exact getLastD_mem_of_ne_nil (a :: rest) 0 (List.cons_ne_nil a rest)
  · apply Finset.sum_eq_zero
    intro i hi
    rw [if_neg]
    rw [decide_eq_true_eq]
    exact max_not_in_bin (Finset.mem_range.mp hi) hks (le_of_lt hspos)
  · intro x hx
    apply indicator_sum_le_one
    intro i j hqi hqj
    rw [decide_eq_true_eq] at hqi hqj
    exact bin_unique hspos hqi hqj

/-- C10 witness: two images at altitudes 10 and 50 — one of five bins
catches altitude 10, the image at the maximum altitude 50 falls into no
bin, and the density-map total 1 is strictly below the image count 2. -/
theorem c10_witness :
    (positiveAltitudesSorted twoAltitudeImages).headD 0 <
      (positiveAltitudesSorted twoAltitudeImages).getLastD 0 ∧
    ((getBladeCoverage twoAltitudeImages).densityMap.map (fun b => b.imageCount)).sum <
      (positiveAltitudesSorted twoAltitudeImages).length :=
  ⟨by decide, c10_density_map_undercounts twoAltitudeImages (by decide)⟩
